import Mathlib

/-!
Verification of the round/phase lifecycle engine of the prompty party game.

The definitions below are a shallow embedding of the TypeScript source:

* `src/convex/lib/gameLogic.ts` — pure eligibility / completion / counting /
  scoring functions (`calculateVotingEligibility`,
  `haveAllEligiblePlayersVoted`, `countVotesPerImage`, `findWinningImages`,
  `calculateRoundScores`, `shouldTriggerEarlyPromptTransition`);
* `src/convex/game/generation.ts` — the phase transition mutation
  (`transitionPhase`, with its duplicate-transition dwell guard and the
  `getPhaseDuration` helper) and the generation verification retry loop
  (`verifyAndTriggerGeneration`);
* `src/convex/game/voting.ts` — the early vote-completion check
  (`checkAllPlayersVoted`).

Database documents are modelled as records carrying exactly the fields the
embedded functions read (mirroring the `Pick<...>` parameter types of the
source); ids are natural numbers.  Mutations are modelled as pure functions
from the loaded state (plus the current wall-clock time `Date.now()` and the
data the handler queries) to the patched round record together with a list of
`Effect`s describing every scheduler call the handler makes.  Handles returned
by the scheduler are supplied as an explicit `newHandle` argument.  The
numeric phase durations live in `convex/lib/constants.ts`, which only the
callers see; they are therefore parameters (`GameConfig`, `ScoreConfig`) of
the model, exactly as the pure scoring function of the source already takes
them.
-/

/-- Player connection status (`"connected" | "disconnected" | "kicked"`). -/
inductive PlayerStatus
| connected
| disconnected
| kicked
deriving DecidableEq, Repr

/-- The fields of a player document read by the pure game logic
(`Pick<Player, "_id" | "status">`). -/
structure Player where
  id : Nat
  status : PlayerStatus
deriving DecidableEq, Repr

/-- The fields of a prompt document read by the pure game logic
(`Pick<Prompt, "playerId">`, plus `_id` and the fields `calculateRoundScores`
resolves winners through). -/
structure Prompt where
  id : Nat
  playerId : Nat
deriving DecidableEq, Repr

/-- The fields of a generated-image document read by the scoring logic
(`_id` and `promptId`). -/
structure GeneratedImage where
  id : Nat
  promptId : Nat
deriving DecidableEq, Repr

/-- The fields of a vote document read by the pure game logic
(`voterId` and `imageId`). -/
structure Vote where
  voterId : Nat
  imageId : Nat
deriving DecidableEq, Repr

/-- Result row of `calculateVotingEligibility`. -/
structure VotingEligibility where
  playerId : Nat
  isEligible : Bool
  reason : String
deriving DecidableEq, Repr

/-- The per-player body of the loop of `calculateVotingEligibility`
(gameLogic.ts lines 70–108): not-connected players are ineligible; a player
is eligible when prompts from other players exist, or when they did not
submit; a submitter with no other prompts is ineligible. -/
def playerEligibility (prompts : List Prompt) (player : Player) : VotingEligibility :=
  if player.status ≠ PlayerStatus.connected then
    ⟨player.id, false, "Player is not connected"⟩
  else
    let playerSubmittedPrompt := prompts.any (fun p => p.playerId == player.id)
    let hasOtherPlayersImages := prompts.any (fun p => p.playerId != player.id)
    if hasOtherPlayersImages then
      ⟨player.id, true, "Can vote on other players\x27 images"⟩
    else if !playerSubmittedPrompt then
      ⟨player.id, true, "Did not submit prompt, can vote on all images"⟩
    else
      ⟨player.id, false, "Only own image available"⟩

/-- `calculateVotingEligibility(connectedPlayers, prompts)`: one result row
per input player, in order. -/
def calculateVotingEligibility (connectedPlayers : List Player)
    (prompts : List Prompt) : List VotingEligibility :=
  connectedPlayers.map (playerEligibility prompts)

/-- `haveAllEligiblePlayersVoted(eligibility, votes)`: false when no player is
eligible, otherwise true iff every eligible player occurs among the voters. -/
def haveAllEligiblePlayersVoted (eligibility : List VotingEligibility)
    (votes : List Vote) : Bool :=
  let votedPlayerIds := votes.map (fun v => v.voterId)
  let eligiblePlayers := eligibility.filter (fun e => e.isEligible)
  if eligiblePlayers.length = 0 then
    false
  else
    eligiblePlayers.all (fun e => votedPlayerIds.contains e.playerId)

/-- Lookup in an insertion-ordered association list modelling a JS `Map`
(`voteCounts.get(k) || 0`). -/
def mapGetCount (m : List (Nat × Nat)) (k : Nat) : Nat :=
  match m.find? (fun p => p.1 == k) with
  | some p => p.2
  | none => 0

/-- Update in an insertion-ordered association list modelling a JS `Map`
(`voteCounts.set(k, v)`): overwrite in place if present, else append. -/
def mapSetCount (m : List (Nat × Nat)) (k v : Nat) : List (Nat × Nat) :=
  if m.any (fun p => p.1 == k) then
    m.map (fun p => if p.1 == k then (k, v) else p)
  else
    m ++ [(k, v)]

/-- `countVotesPerImage(votes)`: tally votes per image id into an
insertion-ordered map. -/
def countVotesPerImage (votes : List Vote) : List (Nat × Nat) :=
  votes.foldl (fun m vote => mapSetCount m vote.imageId (mapGetCount m vote.imageId + 1)) []

/-- `Math.max(...voteCounts.values())`, with 0 for the (guarded-away) empty
map — vote counts are naturals, so the fold from 0 is the maximum. -/
def maxVoteCount (m : List (Nat × Nat)) : Nat :=
  (m.map Prod.snd).foldl max 0

/-- `findWinningImages(voteCounts)`: every key whose count equals the maximum
count, none when the map is empty or the maximum is zero. -/
def findWinningImages (m : List (Nat × Nat)) : List Nat :=
  if m.length = 0 then
    []
  else if maxVoteCount m = 0 then
    []
  else
    (m.filter (fun p => p.2 == maxVoteCount m)).map Prod.fst

/-- The scoring constants `POINTS_PER_WIN` / `POINTS_PER_VOTE` of
`convex/lib/constants.ts`, taken as a parameter exactly as the pure
`calculateRoundScores` of the source takes them. -/
structure ScoreConfig where
  pointsPerWin : Nat
  pointsPerVote : Nat
deriving DecidableEq, Repr

/-- The `reason` discriminator of a `ScoreResult`. -/
inductive ScoreReason
| winner
| winner_tie
| participation
deriving DecidableEq, Repr

/-- One score award produced by `calculateRoundScores`. -/
structure ScoreResult where
  playerId : Nat
  pointsAwarded : Nat
  reason : ScoreReason
deriving DecidableEq, Repr

/-- The image → prompt → owning-player resolution of the winner loop of
`calculateRoundScores` (gameLogic.ts lines 197–203): `none` models the two
`continue` branches for a missing image or prompt. -/
def resolveWinnerPlayer (images : List GeneratedImage) (prompts : List Prompt)
    (imageId : Nat) : Option Nat :=
  match images.find? (fun i => i.id == imageId) with
  | none => none
  | some image =>
    match prompts.find? (fun p => p.id == image.promptId) with
    | none => none
    | some prompt => some prompt.playerId

/-- The participation loop of `calculateRoundScores` (gameLogic.ts lines
213–223): walk the voter ids in vote order, awarding `pts` to each voter id
not yet in the `seen` set. -/
def participationAwards (pts : Nat) : List Nat → List Nat → List ScoreResult
  | [], _ => []
  | v :: vs, seen =>
    if v ∈ seen then
      participationAwards pts vs seen
    else
      ⟨v, pts, ScoreReason.participation⟩ :: participationAwards pts vs (v :: seen)

/-- The winner loop of `calculateRoundScores` (gameLogic.ts lines 193–210):
skipped when there is no winner; otherwise one award of
`floor(pointsPerWin / #winners)` per winning image whose image and prompt
resolve, with reason `winner_tie` exactly on a multi-winner tie. -/
def winnerAwards (images : List GeneratedImage) (prompts : List Prompt)
    (config : ScoreConfig) (winningImageIds : List Nat) : List ScoreResult :=
  if 0 < winningImageIds.length then
    winningImageIds.filterMap (fun imageId =>
      (resolveWinnerPlayer images prompts imageId).map (fun pid =>
        ⟨pid, config.pointsPerWin / winningImageIds.length,
          if 1 < winningImageIds.length then ScoreReason.winner_tie
          else ScoreReason.winner⟩))
  else
    []

/-- `calculateRoundScores(votes, images, prompts, config)`: winner awards
(floor-divided budget per tied winner, resolved through image and prompt)
followed by one participation award per distinct voter. -/
def calculateRoundScores (votes : List Vote) (images : List GeneratedImage)
    (prompts : List Prompt) (config : ScoreConfig) : List ScoreResult :=
  winnerAwards images prompts config (findWinningImages (countVotesPerImage votes)) ++
    participationAwards config.pointsPerVote (votes.map (fun v => v.voterId)) []

/-- Sum of the points of the winner-reason rows (`winner` / `winner_tie`) of
a score-result list: the win points awarded in a round. -/
def winPointsTotal (results : List ScoreResult) : Nat :=
  ((results.filter (fun r => decide (r.reason ≠ ScoreReason.participation))).map
    (fun r => r.pointsAwarded)).sum

/-- `shouldTriggerEarlyPromptTransition(connectedPlayers, prompts)`: false
when no player is connected, otherwise true iff every connected player id
occurs among the prompt submitters. -/
def shouldTriggerEarlyPromptTransition (connectedPlayers : List Player)
    (prompts : List Prompt) : Bool :=
  let connectedPlayerIds :=
    (connectedPlayers.filter (fun p => p.status == PlayerStatus.connected)).map
      (fun p => p.id)
  if connectedPlayerIds.length = 0 then
    false
  else
    let submittedPlayerIds := prompts.map (fun q => q.playerId)
    connectedPlayerIds.all (fun i => submittedPlayerIds.contains i)

/-- Round phase (`Round.status`). -/
inductive RoundStatus
| prompt
| generating
| voting
| results
| complete
deriving DecidableEq, Repr

/-- The mutable fields of a round document touched by `transitionPhase`,
`verifyAndTriggerGeneration` and `checkAllPlayersVoted`.  Wall-clock values
are `Int` milliseconds, matching JS number arithmetic on timestamps. -/
structure RoundState where
  status : RoundStatus
  phaseEndTime : Int
  scheduledTransitionId : Option Nat
  generationStartedAt : Option Int
  generationExpectedCount : Option Nat
  generationCompletedCount : Option Nat
  generationError : Option String
  generationCompletedAt : Option Int
  endedAt : Option Int
deriving DecidableEq, Repr

/-- The phase-duration constants of `GAME_CONFIG` in
`convex/lib/constants.ts`, as parameters of the model. -/
structure GameConfig where
  promptPhaseDuration : Int
  generationPhaseDuration : Int
  votingPhaseDuration : Int
  resultsPhaseDuration : Int
deriving DecidableEq, Repr

/-- `getPhaseDuration(status)` (generation.ts lines 366–379); the `default`
branch returns 0. -/
def getPhaseDuration (cfg : GameConfig) (status : RoundStatus) : Int :=
  match status with
  | RoundStatus.prompt => cfg.promptPhaseDuration
  | RoundStatus.generating => cfg.generationPhaseDuration
  | RoundStatus.voting => cfg.votingPhaseDuration
  | RoundStatus.results => cfg.resultsPhaseDuration
  | RoundStatus.complete => 0

/-- `MINIMUM_PHASE_DURATION_MS = 1000` (generation.ts line 401). -/
def MINIMUM_PHASE_DURATION_MS : Int := 1000

/-- The room fields read by the `results` branch of `transitionPhase`:
`currentRound` (0 models JS-falsy `undefined`) and
`settings.roundsPerGame`. -/
structure RoomInfo where
  currentRound : Nat
  roundsPerGame : Nat
deriving DecidableEq, Repr

/-- A scheduler call made by one of the embedded mutation handlers.  Relative
delays are `runAfter` millisecond counts, `scheduleTransitionAt` is a `runAt`
wall-clock time. -/
inductive Effect
| cancelJob (handle : Nat)
| scheduleVerifyGeneration (delayMs : Nat) (retryCount : Nat)
| scheduleTransitionAt (time : Int)
| scheduleTransitionAfter (delayMs : Nat)
| scheduleCalculateScores
| scheduleStartNextRound (delayMs : Nat)
| scheduleEndGame
| scheduleAIGeneration (delayMs : Nat)
deriving DecidableEq, Repr

/-- The duplicate-transition dwell guard of `transitionPhase` (generation.ts
lines 400–415): it engages only when `phaseEndTime` is truthy and the status
is neither `"generating"` nor `"complete"`, and blocks when the time spent in
the current phase is under the minimum dwell. -/
def duplicateGuardBlocks (cfg : GameConfig) (now : Int) (round : RoundState) : Prop :=
  round.phaseEndTime ≠ 0 ∧ round.status ≠ RoundStatus.generating ∧
  round.status ≠ RoundStatus.complete ∧
  now - (round.phaseEndTime - getPhaseDuration cfg round.status) < MINIMUM_PHASE_DURATION_MS

instance (cfg : GameConfig) (now : Int) (round : RoundState) :
    Decidable (duplicateGuardBlocks cfg now round) :=
  inferInstanceAs (Decidable (_ ∧ _ ∧ _ ∧ _))

/-- The scheduling decision of the `results` branch of `transitionPhase`
(generation.ts lines 524–536): start the next round after a grace delay when
the room exists and its (truthy) current round number is below the configured
rounds per game, otherwise end the game. -/
def resultsBranchEffects (room : Option RoomInfo) : List Effect :=
  match room with
  | some r =>
    if r.currentRound ≠ 0 ∧ r.currentRound < r.roundsPerGame then
      [Effect.scheduleStartNextRound 2000]
    else
      [Effect.scheduleEndGame]
  | none => [Effect.scheduleEndGame]

/-- `transitionPhase` (generation.ts lines 384–543) on a loaded round:
dwell guard, clear the stored handle, then dispatch on the status.  `now` is
`Date.now()`, `promptCount` the number of prompts the prompt branch queries,
`newHandle` the handle returned by `scheduler.runAt` for the next phase
timer, `room` the room document the results branch loads. -/
def transitionPhase (cfg : GameConfig) (now : Int) (promptCount : Nat)
    (newHandle : Nat) (room : Option RoomInfo) (round : RoundState) :
    RoundState × List Effect :=
  if duplicateGuardBlocks cfg now round then
    (round, [])
  else
    let round1 : RoundState := { round with scheduledTransitionId := none }
    match round.status with
    | RoundStatus.prompt =>
      ({ round1 with
          status := RoundStatus.generating,
          phaseEndTime := now + cfg.generationPhaseDuration,
          generationStartedAt := some now,
          generationExpectedCount := some promptCount,
          generationCompletedCount := some 0,
          scheduledTransitionId := some newHandle },
       [Effect.scheduleVerifyGeneration 1000 0,
        Effect.scheduleTransitionAt (now + cfg.generationPhaseDuration)])
    | RoundStatus.generating =>
      ({ round1 with
          status := RoundStatus.voting,
          phaseEndTime := now + cfg.votingPhaseDuration,
          scheduledTransitionId := some newHandle },
       [Effect.scheduleTransitionAt (now + cfg.votingPhaseDuration)])
    | RoundStatus.voting =>
      ({ round1 with
          status := RoundStatus.results,
          phaseEndTime := now + cfg.resultsPhaseDuration,
          scheduledTransitionId := some newHandle },
       [Effect.scheduleCalculateScores,
        Effect.scheduleTransitionAt (now + cfg.resultsPhaseDuration)])
    | RoundStatus.results =>
      ({ round1 with
          status := RoundStatus.complete,
          endedAt := some now },
       resultsBranchEffects room)
    | RoundStatus.complete => (round1, [])

/-- The linear successor of each phase; `complete` is its own successor. -/
def nextStatus : RoundStatus → RoundStatus
  | RoundStatus.prompt => RoundStatus.generating
  | RoundStatus.generating => RoundStatus.voting
  | RoundStatus.voting => RoundStatus.results
  | RoundStatus.results => RoundStatus.complete
  | RoundStatus.complete => RoundStatus.complete

/-- `maxRetries = 3` in `verifyAndTriggerGeneration` (generation.ts line 228). -/
def maxRetries : Nat := 3

/-- `verifyAndTriggerGeneration` (generation.ts lines 220–286): with prompts
present, fire AI generation; otherwise retry with growing delay while under
the cap; at the cap, record the generation error on the round, zero the
expected/completed counters and schedule the forced transition.  The
`retryCount` argument is optional in the source (`args.retryCount || 0`). -/
def verifyAndTriggerGeneration (now : Int) (retryCount : Option Nat)
    (promptCount : Nat) (round : RoundState) : RoundState × List Effect :=
  let rc := retryCount.getD 0
  if 0 < promptCount then
    (round, [Effect.scheduleAIGeneration 0])
  else if rc < maxRetries then
    (round, [Effect.scheduleVerifyGeneration ((rc + 1) * 1000) (rc + 1)])
  else
    ({ round with
        generationError :=
          some ("No prompts found after " ++ toString maxRetries ++ " retry attempts"),
        generationCompletedAt := some now,
        generationExpectedCount := some 0,
        generationCompletedCount := some 0 },
     [Effect.scheduleTransitionAfter 2000])

/-- The total image count computed by `checkAllPlayersVoted` (voting.ts lines
158–169): images are collected per prompt of the round and summed. -/
def totalImagesForRound (prompts : List Prompt) (images : List GeneratedImage) : Nat :=
  (prompts.map (fun p => (images.filter (fun i => i.promptId == p.id)).length)).foldl
    (· + ·) 0

/-- `checkAllPlayersVoted` (voting.ts lines 125–225) on a loaded round:
no-op unless the round is in `voting`, some player is connected, and at least
one image exists; when every eligible player has voted, cancel the stored
timer (when present), clear the handle and schedule the immediate
transition. -/
def checkAllPlayersVoted (round : RoundState) (players : List Player)
    (prompts : List Prompt) (images : List GeneratedImage) (votes : List Vote) :
    RoundState × List Effect :=
  if round.status ≠ RoundStatus.voting then
    (round, [])
  else
    let connectedPlayers := players.filter (fun p => p.status == PlayerStatus.connected)
    if connectedPlayers.length = 0 then
      (round, [])
    else if totalImagesForRound prompts images = 0 then
      (round, [])
    else
      let eligibility := calculateVotingEligibility connectedPlayers prompts
      if haveAllEligiblePlayersVoted eligibility votes then
        ({ round with scheduledTransitionId := none },
         (match round.scheduledTransitionId with
          | some h => [Effect.cancelJob h]
          | none => []) ++ [Effect.scheduleTransitionAfter 0])
      else
        (round, [])

/-! ## Helper lemmas -/

theorem foldl_max_eq_zero {l : List Nat} (h : ∀ x ∈ l, x = 0) :
    l.foldl max 0 = 0 := by
  induction l with
  | nil => rfl
  | cons a t ih =>
    have ha : a = 0 := h a (List.mem_cons_self a t)
    have ht : ∀ x ∈ t, x = 0 := fun x hx => h x (List.mem_cons_of_mem a hx)
    simp only [List.foldl_cons, ha, Nat.max_self]
    exact ih ht

theorem length_filterMap_of_isSome {α β : Type} (f : α → Option β) :
    ∀ l : List α, (∀ x ∈ l, (f x).isSome = true) →
      (l.filterMap f).length = l.length := by
  intro l
  induction l with
  | nil => intro _; rfl
  | cons a t ih =>
    intro h
    rw [List.filterMap_cons]
    cases hfa : f a with
    | none =>
      have := h a (List.mem_cons_self a t)
      rw [hfa] at this
      exact absurd this (by simp)
    | some b =>
      simp only [List.length_cons]
      rw [ih (fun x hx => h x (List.mem_cons_of_mem a hx))]

theorem sum_eq_length_mul_of_all_eq {c : Nat} :
    ∀ {l : List Nat}, (∀ x ∈ l, x = c) → l.sum = l.length * c := by
  intro l
  induction l with
  | nil => intro _; simp
  | cons a t ih =>
    intro h
    have ha : a = c := h a (List.mem_cons_self a t)
    have ht := ih (fun x hx => h x (List.mem_cons_of_mem a hx))
    simp only [List.sum_cons, List.length_cons, ha, ht]
    ring

theorem participationAwards_mem {pts : Nat} :
    ∀ {vs seen : List Nat} {r : ScoreResult}, r ∈ participationAwards pts vs seen →
      r.reason = ScoreReason.participation ∧ r.pointsAwarded = pts := by
  intro vs
  induction vs with
  | nil => intro seen r hr; simp [participationAwards] at hr
  | cons v t ih =>
    intro seen r hr
    rw [participationAwards] at hr
    by_cases hv : v ∈ seen
    · rw [if_pos hv] at hr
      exact ih hr
    · rw [if_neg hv] at hr
      rcases List.mem_cons.mp hr with h | h
      · subst h; exact ⟨rfl, rfl⟩
      · exact ih h

theorem participationAwards_filter_count (pts pid : Nat) :
    ∀ (vs seen : List Nat),
      ((participationAwards pts vs seen).filter
          (fun r => decide (r.reason = ScoreReason.participation ∧ r.playerId = pid))).length
        = if pid ∈ vs ∧ pid ∉ seen then 1 else 0 := by
  intro vs
  induction vs with
  | nil => intro seen; simp [participationAwards]
  | cons v t ih =>
    intro seen
    rw [participationAwards]
    by_cases hv : v ∈ seen
    · rw [if_pos hv, ih seen]
      by_cases hpv : pid = v
      · subst hpv
        simp [List.mem_cons, hv]
      · simp [List.mem_cons, hpv]
    · rw [if_neg hv]
      by_cases hpv : pid = v
      · subst hpv
        rw [List.filter_cons_of_pos (by simp)]
        simp only [List.length_cons, ih (pid :: seen)]
        have : ¬ (pid ∈ t ∧ pid ∉ pid :: seen) := by
          intro ⟨_, hn⟩; exact hn (List.mem_cons_self pid seen)
        rw [if_neg this, if_pos ⟨List.mem_cons_self pid t, hv⟩]
      · rw [List.filter_cons_of_neg
            (by simp; intro h; exact absurd h.symm hpv)]
        rw [ih (v :: seen)]
        have hmem : (pid ∈ v :: t ∧ pid ∉ seen) ↔ (pid ∈ t ∧ pid ∉ v :: seen) := by
          simp [List.mem_cons, hpv]
        by_cases hc : pid ∈ t ∧ pid ∉ v :: seen
        · rw [if_pos hc, if_pos (hmem.mpr hc)]
        · rw [if_neg hc, if_neg (fun h => hc (hmem.mp h))]

theorem winnerAwards_mem {images : List GeneratedImage} {prompts : List Prompt}
    {config : ScoreConfig} {winningImageIds : List Nat} {r : ScoreResult}
    (hr : r ∈ winnerAwards images prompts config winningImageIds) :
    r.reason ≠ ScoreReason.participation ∧
    r.pointsAwarded = config.pointsPerWin / winningImageIds.length := by
  unfold winnerAwards at hr
  by_cases h0 : 0 < winningImageIds.length
  · rw [if_pos h0] at hr
    obtain ⟨w, _, hfw⟩ := List.mem_filterMap.mp hr
    obtain ⟨pid, _, hpid⟩ := Option.map_eq_some'.mp hfw
    rw [← hpid]
    refine ⟨?_, rfl⟩
    by_cases h1 : 1 < winningImageIds.length
    · simp [h1]
    · simp [h1]
  · rw [if_neg h0] at hr
    simp at hr

theorem winnerAwards_length {images : List GeneratedImage} {prompts : List Prompt}
    {config : ScoreConfig} {winningImageIds : List Nat}
    (hres : ∀ w ∈ winningImageIds, (resolveWinnerPlayer images prompts w).isSome = true) :
    (winnerAwards images prompts config winningImageIds).length =
      winningImageIds.length := by
  unfold winnerAwards
  by_cases h0 : 0 < winningImageIds.length
  · rw [if_pos h0]
    apply length_filterMap_of_isSome
    intro w hw
    rw [Option.isSome_map']
    exact hres w hw
  · rw [if_neg h0]
    simp only [List.length_nil]
    omega

theorem transitionPhase_noop_of_blocked {cfg : GameConfig} {now : Int}
    {pc hdl : Nat} {room : Option RoomInfo} {round : RoundState}
    (hb : duplicateGuardBlocks cfg now round) :
    transitionPhase cfg now pc hdl room round = (round, []) := by
  unfold transitionPhase
  rw [if_pos hb]

theorem transitionPhase_eq_of_generating (cfg : GameConfig) (now : Int)
    (pc hdl : Nat) (room : Option RoomInfo) (pet : Int) (sti : Option Nat)
    (gsa : Option Int) (gec gcc : Option Nat) (ge : Option String)
    (gca ea : Option Int) :
    transitionPhase cfg now pc hdl room
        ⟨RoundStatus.generating, pet, sti, gsa, gec, gcc, ge, gca, ea⟩ =
      (⟨RoundStatus.voting, now + cfg.votingPhaseDuration, some hdl,
          gsa, gec, gcc, ge, gca, ea⟩,
       [Effect.scheduleTransitionAt (now + cfg.votingPhaseDuration)]) := by
  unfold transitionPhase
  rw [if_neg (fun h => h.2.1 rfl)]

theorem transitionPhase_eq_of_complete (cfg : GameConfig) (now : Int)
    (pc hdl : Nat) (room : Option RoomInfo) (pet : Int) (sti : Option Nat)
    (gsa : Option Int) (gec gcc : Option Nat) (ge : Option String)
    (gca ea : Option Int) :
    transitionPhase cfg now pc hdl room
        ⟨RoundStatus.complete, pet, sti, gsa, gec, gcc, ge, gca, ea⟩ =
      (⟨RoundStatus.complete, pet, none, gsa, gec, gcc, ge, gca, ea⟩, []) := by
  unfold transitionPhase
  rw [if_neg (fun h => h.2.2.1 rfl)]

theorem transitionPhase_eq_of_prompt (cfg : GameConfig) (now : Int)
    (pc hdl : Nat) (room : Option RoomInfo) (pet : Int) (sti : Option Nat)
    (gsa : Option Int) (gec gcc : Option Nat) (ge : Option String)
    (gca ea : Option Int)
    (hb : ¬ duplicateGuardBlocks cfg now
      ⟨RoundStatus.prompt, pet, sti, gsa, gec, gcc, ge, gca, ea⟩) :
    transitionPhase cfg now pc hdl room
        ⟨RoundStatus.prompt, pet, sti, gsa, gec, gcc, ge, gca, ea⟩ =
      (⟨RoundStatus.generating, now + cfg.generationPhaseDuration, some hdl,
          some now, some pc, some 0, ge, gca, ea⟩,
       [Effect.scheduleVerifyGeneration 1000 0,
        Effect.scheduleTransitionAt (now + cfg.generationPhaseDuration)]) := by
  unfold transitionPhase
  rw [if_neg hb]

theorem transitionPhase_eq_of_voting (cfg : GameConfig) (now : Int)
    (pc hdl : Nat) (room : Option RoomInfo) (pet : Int) (sti : Option Nat)
    (gsa : Option Int) (gec gcc : Option Nat) (ge : Option String)
    (gca ea : Option Int)
    (hb : ¬ duplicateGuardBlocks cfg now
      ⟨RoundStatus.voting, pet, sti, gsa, gec, gcc, ge, gca, ea⟩) :
    transitionPhase cfg now pc hdl room
        ⟨RoundStatus.voting, pet, sti, gsa, gec, gcc, ge, gca, ea⟩ =
      (⟨RoundStatus.results, now + cfg.resultsPhaseDuration, some hdl,
          gsa, gec, gcc, ge, gca, ea⟩,
       [Effect.scheduleCalculateScores,
        Effect.scheduleTransitionAt (now + cfg.resultsPhaseDuration)]) := by
  unfold transitionPhase
  rw [if_neg hb]

theorem transitionPhase_eq_of_results (cfg : GameConfig) (now : Int)
    (pc hdl : Nat) (room : Option RoomInfo) (pet : Int) (sti : Option Nat)
    (gsa : Option Int) (gec gcc : Option Nat) (ge : Option String)
    (gca ea : Option Int)
    (hb : ¬ duplicateGuardBlocks cfg now
      ⟨RoundStatus.results, pet, sti, gsa, gec, gcc, ge, gca, ea⟩) :
    transitionPhase cfg now pc hdl room
        ⟨RoundStatus.results, pet, sti, gsa, gec, gcc, ge, gca, ea⟩ =
      (⟨RoundStatus.complete, pet, none, gsa, gec, gcc, ge, gca, some now⟩,
       resultsBranchEffects room) := by
  unfold transitionPhase
  rw [if_neg hb]

/-! ## Claim theorems -/

/-- Claim C2, counterexample: a round in the `generating` phase that has been
in that phase for only 100 ms (well under the 1000 ms minimum dwell) is NOT
left unchanged by `transitionPhase` — the dwell guard explicitly excludes the
`generating` status, so the round advances to `voting`. -/
theorem c2_counterexample :
    (60100 : Int) - ((105000 : Int) - (45000 : Int)) < MINIMUM_PHASE_DURATION_MS
  ∧ transitionPhase ⟨60000, 45000, 45000, 15000⟩ 60100 0 9 none
        ⟨RoundStatus.generating, 105000, some 7, some 60000, some 3, some 0,
          none, none, none⟩ ≠
      (⟨RoundStatus.generating, 105000, some 7, some 60000, some 3, some 0,
          none, none, none⟩, [])
  ∧ (transitionPhase ⟨60000, 45000, 45000, 15000⟩ 60100 0 9 none
        ⟨RoundStatus.generating, 105000, some 7, some 60000, some 3, some 0,
          none, none, none⟩).1.status = RoundStatus.voting := by
  refine ⟨by decide, ?_, ?_⟩
  · rw [transitionPhase_eq_of_generating]
    decide
  · rw [transitionPhase_eq_of_generating]

/-- Claim C2, amended: for every round whose status is neither `generating`
nor `complete` (and whose `phaseEndTime` is set, as holds for every round the
engine creates), invoking `transitionPhase` when the time spent in the
current phase is below the minimum dwell is a no-op: the round record is left
unchanged and nothing is scheduled. -/
theorem c2_guard_noop (cfg : GameConfig) (now : Int) (pc hdl : Nat)
    (room : Option RoomInfo) (round : RoundState)
    (hg : round.status ≠ RoundStatus.generating)
    (hc : round.status ≠ RoundStatus.complete)
    (hp : round.phaseEndTime ≠ 0)
    (ht : now - (round.phaseEndTime - getPhaseDuration cfg round.status) <
      MINIMUM_PHASE_DURATION_MS) :
    transitionPhase cfg now pc hdl room round = (round, []) :=
  transitionPhase_noop_of_blocked ⟨hp, hg, hc, ht⟩

/-- Witness for `c2_guard_noop`: a `voting` round 100 ms into its phase. -/
theorem c2_witness :
    transitionPhase ⟨60000, 45000, 45000, 15000⟩ 60100 0 9 none
        ⟨RoundStatus.voting, 105000, some 7, none, none, none, none, none, none⟩ =
      (⟨RoundStatus.voting, 105000, some 7, none, none, none, none, none, none⟩, []) :=
  c2_guard_noop ⟨60000, 45000, 45000, 15000⟩ 60100 0 9 none
    ⟨RoundStatus.voting, 105000, some 7, none, none, none, none, none, none⟩
    (by decide) (by decide) (by decide) (by decide)

/-- Claim C10: in the `voting` phase with zero generated images,
`checkAllPlayersVoted` returns without canceling the stored timer, without
clearing the handle and without scheduling a transition, whatever the players
and votes are. -/
theorem c10_zero_images_noop (round : RoundState) (players : List Player)
    (prompts : List Prompt) (images : List GeneratedImage) (votes : List Vote)
    (hs : round.status = RoundStatus.voting)
    (hz : totalImagesForRound prompts images = 0) :
    checkAllPlayersVoted round players prompts images votes = (round, []) := by
  unfold checkAllPlayersVoted
  rw [if_neg (by simp [hs])]
  by_cases h0 : (players.filter (fun p => p.status == PlayerStatus.connected)).length = 0
  · simp [h0]
  · simp [h0, hz]

/-- Witness for `c10_zero_images_noop`: one connected player, a prompt from a
different player (so the player is marked eligible), no images. -/
theorem c10_witness :
    checkAllPlayersVoted
        ⟨RoundStatus.voting, 105000, some 7, none, none, none, none, none, none⟩
        [⟨1, PlayerStatus.connected⟩] [⟨100, 2⟩] [] [] =
      (⟨RoundStatus.voting, 105000, some 7, none, none, none, none, none, none⟩, []) :=
  c10_zero_images_noop _ _ _ _ _ rfl rfl

/-- Claim C9: generation verification with no prompts retries exactly
`maxRetries = 3` times with strictly growing delays (1000, 2000, 3000 ms);
after the cap the round gets the recorded generation-error string and zero
expected images, nothing is thrown, and the scheduled forced transition moves
the (still `generating`) round forward into `voting`. -/
theorem c9_generation_retry (now1 now2 now3 now4 : Int) (round : RoundState)
    (hs : round.status = RoundStatus.generating)
    (cfg : GameConfig) (now : Int) (pc hdl : Nat) (room : Option RoomInfo) :
    verifyAndTriggerGeneration now1 (some 0) 0 round =
      (round, [Effect.scheduleVerifyGeneration 1000 1])
  ∧ verifyAndTriggerGeneration now2 (some 1) 0 round =
      (round, [Effect.scheduleVerifyGeneration 2000 2])
  ∧ verifyAndTriggerGeneration now3 (some 2) 0 round =
      (round, [Effect.scheduleVerifyGeneration 3000 3])
  ∧ (verifyAndTriggerGeneration now4 (some 3) 0 round).1.generationError =
      some "No prompts found after 3 retry attempts"
  ∧ (verifyAndTriggerGeneration now4 (some 3) 0 round).1.generationExpectedCount =
      some 0
  ∧ (verifyAndTriggerGeneration now4 (some 3) 0 round).2 =
      [Effect.scheduleTransitionAfter 2000]
  ∧ (transitionPhase cfg now pc hdl room
        (verifyAndTriggerGeneration now4 (some 3) 0 round).1).1.status =
      RoundStatus.voting := by
  obtain ⟨st, pet, sti, gsa, gec, gcc, ge, gca, ea⟩ := round
  simp only [RoundState.status] at hs
  subst hs
  refine ⟨rfl, rfl, rfl, rfl, rfl, rfl, ?_⟩
  rw [show (verifyAndTriggerGeneration now4 (some 3) 0
      ⟨RoundStatus.generating, pet, sti, gsa, gec, gcc, ge, gca, ea⟩).1 =
      ⟨RoundStatus.generating, pet, sti, gsa, some 0, some 0,
        some "No prompts found after 3 retry attempts", some now4, ea⟩ from rfl]
  rw [transitionPhase_eq_of_generating]

/-- Witness for `c9_generation_retry`: concrete round and config. -/
theorem c9_witness :
    (transitionPhase ⟨60000, 45000, 45000, 15000⟩ 63000 0 9 none
        (verifyAndTriggerGeneration 62000 (some 3) 0
          ⟨RoundStatus.generating, 105000, none, some 60000, some 0, some 0,
            none, none, none⟩).1).1.status = RoundStatus.voting :=
  (c9_generation_retry 60000 60500 61000 62000
    ⟨RoundStatus.generating, 105000, none, some 60000, some 0, some 0,
      none, none, none⟩ rfl
    ⟨60000, 45000, 45000, 15000⟩ 63000 0 9 none).2.2.2.2.2.2

/-- Claim C4: `findWinningImages` returns the empty list on the empty map and
on all-zero counts, contains every key whose count equals the (nonzero)
maximum, and contains only keys carrying the nonzero maximum count. -/
theorem c4_winning_images (m : List (Nat × Nat)) :
    findWinningImages [] = ([] : List Nat)
  ∧ ((∀ p ∈ m, p.2 = 0) → findWinningImages m = [])
  ∧ (∀ a c, (a, c) ∈ m → c = maxVoteCount m → c ≠ 0 → a ∈ findWinningImages m)
  ∧ (∀ a, a ∈ findWinningImages m →
      ∃ c, (a, c) ∈ m ∧ c = maxVoteCount m ∧ c ≠ 0) := by
  refine ⟨rfl, ?_, ?_, ?_⟩
  · intro h
    have hmax : maxVoteCount m = 0 := by
      unfold maxVoteCount
      apply foldl_max_eq_zero
      intro x hx
      obtain ⟨p, hp, hpx⟩ := List.mem_map.mp hx
      rw [← hpx]
      exact h p hp
    unfold findWinningImages
    by_cases h0 : m.length = 0
    · rw [if_pos h0]
    · rw [if_neg h0, if_pos hmax]
  · intro a c hmem hc hne
    unfold findWinningImages
    have h0 : m.length ≠ 0 := by
      intro h
      rw [List.length_eq_zero] at h
      subst h
      simp at hmem
    have hmx : maxVoteCount m ≠ 0 := by rw [← hc]; exact hne
    rw [if_neg h0, if_neg hmx]
    exact List.mem_map.mpr
      ⟨(a, c), List.mem_filter.mpr ⟨hmem, by simp [hc]⟩, rfl⟩
  · intro a ha
    unfold findWinningImages at ha
    by_cases h0 : m.length = 0
    · rw [if_pos h0] at ha
      simp at ha
    · rw [if_neg h0] at ha
      by_cases hmx : maxVoteCount m = 0
      · rw [if_pos hmx] at ha
        simp at ha
      · rw [if_neg hmx] at ha
        obtain ⟨p, hp, hpa⟩ := List.mem_map.mp ha
        obtain ⟨hpm, hpc⟩ := List.mem_filter.mp hp
        refine ⟨p.2, ?_, ?_, ?_⟩
        · rw [← hpa]; exact hpm
        · exact beq_iff_eq.mp hpc
        · rw [beq_iff_eq.mp hpc]; exact hmx

/-- Witness for `c4_winning_images`: keys 1 and 2 tie at count 2 and both
win; key 3 with count 1 yields a witness of only-maximal membership. -/
theorem c4_witness :
    ((1, 2) ∈ [(1, 2), (2, 2), (3, 1)] ∧
      1 ∈ findWinningImages [(1, 2), (2, 2), (3, 1)]) ∧
    ∃ c, (2, c) ∈ [(1, 2), (2, 2), (3, 1)] ∧
      c = maxVoteCount [(1, 2), (2, 2), (3, 1)] ∧ c ≠ 0 :=
  ⟨⟨by decide,
    (c4_winning_images [(1, 2), (2, 2), (3, 1)]).2.2.1 1 2 (by decide)
      (by decide) (by decide)⟩,
   (c4_winning_images [(1, 2), (2, 2), (3, 1)]).2.2.2 2 (by decide)⟩

/-- Claim C1, counterexample: a `prompt` round whose timer legitimately fires
(60 s into the phase) moves to `generating`; a second invocation 1 ms later
is NOT absorbed — the dwell guard excludes the `generating` status, so the
second call advances the round again, to `voting`, and the end state differs
from the single-invocation end state. -/
theorem c1_counterexample :
    ((transitionPhase ⟨60000, 45000, 45000, 15000⟩ 60000 3 101 none
        ⟨RoundStatus.prompt, 60000, some 7, none, none, none, none, none, none⟩).1.status
      = RoundStatus.generating)
  ∧ ((transitionPhase ⟨60000, 45000, 45000, 15000⟩ 60001 3 102 none
        (transitionPhase ⟨60000, 45000, 45000, 15000⟩ 60000 3 101 none
          ⟨RoundStatus.prompt, 60000, some 7, none, none, none, none, none,
            none⟩).1).1.status = RoundStatus.voting)
  ∧ (transitionPhase ⟨60000, 45000, 45000, 15000⟩ 60001 3 102 none
        (transitionPhase ⟨60000, 45000, 45000, 15000⟩ 60000 3 101 none
          ⟨RoundStatus.prompt, 60000, some 7, none, none, none, none, none,
            none⟩).1).1 ≠
      (transitionPhase ⟨60000, 45000, 45000, 15000⟩ 60000 3 101 none
        ⟨RoundStatus.prompt, 60000, some 7, none, none, none, none, none,
          none⟩).1 := by
  rw [transitionPhase_eq_of_prompt _ _ _ _ _ _ _ _ _ _ _ _ _ (by decide)]
  rw [show (⟨RoundStatus.generating, (60000 : Int) + 45000, some 101, some 60000,
      some 3, some 0, none, none, none⟩ : RoundState) =
      ⟨RoundStatus.generating, 105000, some 101, some 60000, some 3, some 0,
        none, none, none⟩ from by decide]
  rw [transitionPhase_eq_of_generating]
  refine ⟨rfl, rfl, by decide⟩

/-- Claim C1, amended: the double-invocation absorption holds for every round
except one entering from the `prompt` phase: if the round's status is not
`prompt` and the first invocation is not itself rejected by the dwell guard,
then a second invocation within the minimum dwell time (with any prompt
count, fresh handle and room view) returns the first invocation's round
unchanged and schedules nothing. -/
theorem c1_idempotent_after_nonprompt (cfg : GameConfig) (now1 now2 : Int)
    (pc1 pc2 h1 h2 : Nat) (room1 room2 : Option RoomInfo) (round : RoundState)
    (hs : round.status ≠ RoundStatus.prompt)
    (hg : ¬ duplicateGuardBlocks cfg now1 round)
    (h0 : 0 < now1) (h12 : now1 ≤ now2)
    (hq : now2 < now1 + MINIMUM_PHASE_DURATION_MS)
    (hv : 0 ≤ cfg.votingPhaseDuration) (hr : 0 ≤ cfg.resultsPhaseDuration) :
    transitionPhase cfg now2 pc2 h2 room2
        (transitionPhase cfg now1 pc1 h1 room1 round).1 =
      ((transitionPhase cfg now1 pc1 h1 room1 round).1, []) := by
  obtain ⟨st, pet, sti, gsa, gec, gcc, ge, gca, ea⟩ := round
  cases st with
  | prompt => exact absurd rfl hs
  | generating =>
    rw [transitionPhase_eq_of_generating]
    apply transitionPhase_noop_of_blocked
    refine ⟨?_, ?_, ?_, ?_⟩
    · show now1 + cfg.votingPhaseDuration ≠ 0
      omega
    · show RoundStatus.voting ≠ RoundStatus.generating
      decide
    · show RoundStatus.voting ≠ RoundStatus.complete
      decide
    · show now2 - (now1 + cfg.votingPhaseDuration -
          getPhaseDuration cfg RoundStatus.voting) < MINIMUM_PHASE_DURATION_MS
      simp only [getPhaseDuration, MINIMUM_PHASE_DURATION_MS] at *
      omega
  | voting =>
    rw [transitionPhase_eq_of_voting _ _ _ _ _ _ _ _ _ _ _ _ _ hg]
    apply transitionPhase_noop_of_blocked
    refine ⟨?_, ?_, ?_, ?_⟩
    · show now1 + cfg.resultsPhaseDuration ≠ 0
      omega
    · show RoundStatus.results ≠ RoundStatus.generating
      decide
    · show RoundStatus.results ≠ RoundStatus.complete
      decide
    · show now2 - (now1 + cfg.resultsPhaseDuration -
          getPhaseDuration cfg RoundStatus.results) < MINIMUM_PHASE_DURATION_MS
      simp only [getPhaseDuration, MINIMUM_PHASE_DURATION_MS] at *
      omega
  | results =>
    rw [transitionPhase_eq_of_results _ _ _ _ _ _ _ _ _ _ _ _ _ hg]
    rw [transitionPhase_eq_of_complete]
  | complete =>
    rw [transitionPhase_eq_of_complete, transitionPhase_eq_of_complete]

/-- Witness for `c1_idempotent_after_nonprompt`: a `voting` round whose timer
fires at the deadline; a second invocation 1 ms later is absorbed. -/
theorem c1_witness :
    transitionPhase ⟨60000, 45000, 45000, 15000⟩ 105001 0 12 none
        (transitionPhase ⟨60000, 45000, 45000, 15000⟩ 105000 0 11 none
          ⟨RoundStatus.voting, 105000, some 7, none, none, none, none, none,
            none⟩).1 =
      ((transitionPhase ⟨60000, 45000, 45000, 15000⟩ 105000 0 11 none
          ⟨RoundStatus.voting, 105000, some 7, none, none, none, none, none,
            none⟩).1, []) :=
  c1_idempotent_after_nonprompt ⟨60000, 45000, 45000, 15000⟩ 105000 105001
    0 0 11 12 none none
    ⟨RoundStatus.voting, 105000, some 7, none, none, none, none, none, none⟩
    (by decide) (by decide) (by decide) (by decide) (by decide) (by decide)
    (by decide)

/-- Claim C3: every `transitionPhase` invocation either leaves the status
unchanged or advances it to its immediate linear successor (no skips, no
back-edges); whenever the dwell guard does not block, the status advances
exactly one step; a round entering `complete` leaves the machine with no
stored handle; and on a `complete` round with no stored handle (the only kind
the machine produces) the invocation changes nothing and schedules nothing. -/
theorem c3_linear_progression (cfg : GameConfig) (now : Int) (pc hdl : Nat)
    (room : Option RoomInfo) (round : RoundState) :
    ((transitionPhase cfg now pc hdl room round).1.status = round.status ∨
      (transitionPhase cfg now pc hdl room round).1.status = nextStatus round.status)
  ∧ (¬ duplicateGuardBlocks cfg now round →
      (transitionPhase cfg now pc hdl room round).1.status = nextStatus round.status)
  ∧ (round.status = RoundStatus.results → ¬ duplicateGuardBlocks cfg now round →
      (transitionPhase cfg now pc hdl room round).1.scheduledTransitionId = none)
  ∧ (round.status = RoundStatus.complete →
      (transitionPhase cfg now pc hdl room round).1.status = RoundStatus.complete ∧
      (round.scheduledTransitionId = none →
        transitionPhase cfg now pc hdl room round = (round, []))) := by
  by_cases hb : duplicateGuardBlocks cfg now round
  · rw [transitionPhase_noop_of_blocked hb]
    exact ⟨Or.inl rfl, fun h => absurd hb h,
      fun _ h => absurd hb h,
      fun hcomp => absurd hcomp hb.2.2.1⟩
  · obtain ⟨st, pet, sti, gsa, gec, gcc, ge, gca, ea⟩ := round
    cases st with
    | prompt =>
      rw [transitionPhase_eq_of_prompt _ _ _ _ _ _ _ _ _ _ _ _ _ hb]
      refine ⟨Or.inr rfl, fun _ => rfl, ?_, ?_⟩
      · intro h; exact RoundStatus.noConfusion h
      · intro h; exact RoundStatus.noConfusion h
    | generating =>
      rw [transitionPhase_eq_of_generating]
      refine ⟨Or.inr rfl, fun _ => rfl, ?_, ?_⟩
      · intro h; exact RoundStatus.noConfusion h
      · intro h; exact RoundStatus.noConfusion h
    | voting =>
      rw [transitionPhase_eq_of_voting _ _ _ _ _ _ _ _ _ _ _ _ _ hb]
      refine ⟨Or.inr rfl, fun _ => rfl, ?_, ?_⟩
      · intro h; exact RoundStatus.noConfusion h
      · intro h; exact RoundStatus.noConfusion h
    | results =>
      rw [transitionPhase_eq_of_results _ _ _ _ _ _ _ _ _ _ _ _ _ hb]
      refine ⟨Or.inr rfl, fun _ => rfl, fun _ _ => rfl, ?_⟩
      intro h; exact RoundStatus.noConfusion h
    | complete =>
      rw [transitionPhase_eq_of_complete]
      refine ⟨Or.inl rfl, fun _ => rfl, ?_, fun _ => ⟨rfl, ?_⟩⟩
      · intro h; exact RoundStatus.noConfusion h
      · intro hsti
        simp only [RoundState.scheduledTransitionId] at hsti
        subst hsti
        rfl

/-- Witness for `c3_linear_progression`: a `voting` round past its dwell
advances exactly to `results`, and a handle-free `complete` round is a strict
no-op. -/
theorem c3_witness :
    ((transitionPhase ⟨60000, 45000, 45000, 15000⟩ 105000 0 11 none
        ⟨RoundStatus.voting, 105000, some 7, none, none, none, none, none,
          none⟩).1.status = nextStatus RoundStatus.voting)
  ∧ transitionPhase ⟨60000, 45000, 45000, 15000⟩ 120000 0 11 none
        ⟨RoundStatus.complete, 120000, none, none, none, none, none, none,
          some 119000⟩ =
      (⟨RoundStatus.complete, 120000, none, none, none, none, none, none,
        some 119000⟩, []) :=
  ⟨(c3_linear_progression ⟨60000, 45000, 45000, 15000⟩ 105000 0 11 none
      ⟨RoundStatus.voting, 105000, some 7, none, none, none, none, none,
        none⟩).2.1 (by decide),
   ((c3_linear_progression ⟨60000, 45000, 45000, 15000⟩ 120000 0 11 none
      ⟨RoundStatus.complete, 120000, none, none, none, none, none, none,
        some 119000⟩).2.2.2 rfl).2 rfl⟩

/-- Claim C7, counterexample: a connected player who did not submit anything
is marked eligible by `calculateVotingEligibility` even when no prompt (hence
no image) exists at all, contradicting "eligible exactly when at least one
image exists". -/
theorem c7_counterexample :
    calculateVotingEligibility [⟨1, PlayerStatus.connected⟩] [] =
      [⟨1, true, "Did not submit prompt, can vote on all images"⟩] := by
  decide

/-- Claim C7, amended: characterization of the per-player eligibility result:
a not-connected (disconnected or kicked) player is ineligible; a connected
player is eligible whenever prompts from other players exist; a connected
player who submitted and is the only submitter is ineligible with reason
"Only own image available"; and a connected player who did not submit is
eligible unconditionally — also when no prompt exists at all.  The evaluator
row list is the per-player map over the input players. -/
theorem c7_eligibility (players : List Player) (prompts : List Prompt)
    (p : Player) :
    (p.status ≠ PlayerStatus.connected →
      playerEligibility prompts p = ⟨p.id, false, "Player is not connected"⟩)
  ∧ (p.status = PlayerStatus.connected → (∃ q ∈ prompts, q.playerId ≠ p.id) →
      (playerEligibility prompts p).isEligible = true)
  ∧ (p.status = PlayerStatus.connected → (∀ q ∈ prompts, q.playerId = p.id) →
      (∃ q ∈ prompts, q.playerId = p.id) →
      playerEligibility prompts p = ⟨p.id, false, "Only own image available"⟩)
  ∧ (p.status = PlayerStatus.connected → (∀ q ∈ prompts, q.playerId ≠ p.id) →
      (playerEligibility prompts p).isEligible = true)
  ∧ calculateVotingEligibility players prompts =
      players.map (playerEligibility prompts) := by
  refine ⟨?_, ?_, ?_, ?_, rfl⟩
  · intro h
    unfold playerEligibility
    rw [if_pos h]
  · intro hc ⟨q, hq, hne⟩
    unfold playerEligibility
    rw [if_neg (by simp [hc])]
    have hother : prompts.any (fun r => r.playerId != p.id) = true :=
      List.any_eq_true.mpr ⟨q, hq, by simp [hne]⟩
    simp only [hother, if_true]
  · intro hc hall ⟨q, hq, hqp⟩
    unfold playerEligibility
    rw [if_neg (by simp [hc])]
    have hother : prompts.any (fun r => r.playerId != p.id) = false := by
      rw [List.any_eq_false]
      intro r hr
      simp [hall r hr]
    have hsub : prompts.any (fun r => r.playerId == p.id) = true :=
      List.any_eq_true.mpr ⟨q, hq, by simp [hqp]⟩
    simp only [hother, hsub, Bool.not_true, if_false, Bool.false_eq_true]
  · intro hc hnone
    unfold playerEligibility
    rw [if_neg (by simp [hc])]
    have hsub : prompts.any (fun r => r.playerId == p.id) = false := by
      rw [List.any_eq_false]
      intro r hr
      simp [hnone r hr]
    by_cases hother : prompts.any (fun r => r.playerId != p.id) = true
    · simp [hother]
    · simp [hother, hsub]

/-- Witness for `c7_eligibility`: two players, one prompt each — both are
eligible; a lone submitter with no other prompts is ineligible. -/
theorem c7_witness :
    ((playerEligibility [⟨100, 2⟩] ⟨1, PlayerStatus.connected⟩).isEligible = true)
  ∧ playerEligibility [⟨100, 1⟩] ⟨1, PlayerStatus.connected⟩ =
      ⟨1, false, "Only own image available"⟩
  ∧ playerEligibility [⟨100, 2⟩] ⟨1, PlayerStatus.kicked⟩ =
      ⟨1, false, "Player is not connected"⟩ :=
  ⟨(c7_eligibility [] [⟨100, 2⟩] ⟨1, PlayerStatus.connected⟩).2.1 rfl
    ⟨⟨100, 2⟩, by decide, by decide⟩,
   (c7_eligibility [] [⟨100, 1⟩] ⟨1, PlayerStatus.connected⟩).2.2.1 rfl
    (by decide) ⟨⟨100, 1⟩, by decide, by decide⟩,
   (c7_eligibility [] [⟨100, 2⟩] ⟨1, PlayerStatus.kicked⟩).1 (by decide)⟩

/-- Claim C8: `haveAllEligiblePlayersVoted` is true iff some player is
eligible and every eligible player has a recorded vote, and the analogous
prompt-phase check `shouldTriggerEarlyPromptTransition` is true iff some
player is connected and every connected player has a recorded prompt; in
particular both are false on an empty eligible set. -/
theorem c8_all_required_acted (eligibility : List VotingEligibility)
    (votes : List Vote) (players : List Player) (prompts : List Prompt) :
    (haveAllEligiblePlayersVoted eligibility votes = true ↔
      ((∃ e ∈ eligibility, e.isEligible = true) ∧
        ∀ e ∈ eligibility, e.isEligible = true →
          e.playerId ∈ votes.map (fun v => v.voterId)))
  ∧ (shouldTriggerEarlyPromptTransition players prompts = true ↔
      ((∃ p ∈ players, p.status = PlayerStatus.connected) ∧
        ∀ p ∈ players, p.status = PlayerStatus.connected →
          p.id ∈ prompts.map (fun q => q.playerId))) := by
  constructor
  · unfold haveAllEligiblePlayersVoted
    by_cases h0 : (eligibility.filter (fun e => e.isEligible)).length = 0
    · rw [if_pos h0]
      rw [List.length_eq_zero] at h0
      simp only [Bool.false_eq_true, false_iff]
      intro ⟨⟨e, he, helig⟩, _⟩
      have : e ∈ eligibility.filter (fun e => e.isEligible) :=
        List.mem_filter.mpr ⟨he, helig⟩
      rw [h0] at this
      simp at this
    · rw [if_neg h0]
      constructor
      · intro hall
        constructor
        · have hne : eligibility.filter (fun e => e.isEligible) ≠ [] := by
            intro h; exact h0 (by rw [h]; rfl)
          obtain ⟨e, he⟩ := List.exists_mem_of_ne_nil _ hne
          obtain ⟨hmem, helig⟩ := List.mem_filter.mp he
          exact ⟨e, hmem, helig⟩
        · intro e he helig
          have := List.all_eq_true.mp hall e (List.mem_filter.mpr ⟨he, helig⟩)
          simpa using this
      · intro ⟨_, hall⟩
        rw [List.all_eq_true]
        intro e he
        obtain ⟨hmem, helig⟩ := List.mem_filter.mp he
        simpa using hall e hmem helig
  · unfold shouldTriggerEarlyPromptTransition
    by_cases h0 : ((players.filter (fun p => p.status == PlayerStatus.connected)).map
        (fun p => p.id)).length = 0
    · rw [if_pos h0]
      rw [List.length_eq_zero] at h0
      simp only [Bool.false_eq_true, false_iff]
      intro ⟨⟨p, hp, hconn⟩, _⟩
      have : p.id ∈ (players.filter (fun p => p.status == PlayerStatus.connected)).map
          (fun p => p.id) :=
        List.mem_map.mpr ⟨p, List.mem_filter.mpr ⟨hp, by simp [hconn]⟩, rfl⟩
      rw [h0] at this
      simp at this
    · rw [if_neg h0]
      constructor
      · intro hall
        constructor
        · have hne : (players.filter (fun p => p.status == PlayerStatus.connected)).map
              (fun p => p.id) ≠ [] := by
            intro h; exact h0 (by rw [h]; rfl)
          have hne2 : players.filter (fun p => p.status == PlayerStatus.connected) ≠ [] := by
            intro h; exact hne (by rw [h]; rfl)
          obtain ⟨p, hp⟩ := List.exists_mem_of_ne_nil _ hne2
          obtain ⟨hmem, hconn⟩ := List.mem_filter.mp hp
          exact ⟨p, hmem, by simpa using hconn⟩
        · intro p hp hconn
          have hpid : p.id ∈ (players.filter (fun p => p.status == PlayerStatus.connected)).map
              (fun p => p.id) :=
            List.mem_map.mpr ⟨p, List.mem_filter.mpr ⟨hp, by simp [hconn]⟩, rfl⟩
          have := List.all_eq_true.mp hall p.id hpid
          simpa using this
      · intro ⟨_, hall⟩
        rw [List.all_eq_true]
        intro i hi
        obtain ⟨p, hp, hpi⟩ := List.mem_map.mp hi
        obtain ⟨hmem, hconn⟩ := List.mem_filter.mp hp
        rw [← hpi]
        simpa using hall p hmem (by simpa using hconn)

/-- Witness for `c8_all_required_acted`: two eligible voters who both voted
satisfy the vote check; the prompt check holds for two connected players with
two prompts. -/
theorem c8_witness :
    haveAllEligiblePlayersVoted
        [⟨1, true, "Can vote"⟩, ⟨2, true, "Can vote"⟩]
        [⟨1, 10⟩, ⟨2, 11⟩] = true
  ∧ shouldTriggerEarlyPromptTransition
        [⟨1, PlayerStatus.connected⟩, ⟨2, PlayerStatus.connected⟩]
        [⟨100, 1⟩, ⟨101, 2⟩] = true :=
  ⟨(c8_all_required_acted [⟨1, true, "Can vote"⟩, ⟨2, true, "Can vote"⟩]
      [⟨1, 10⟩, ⟨2, 11⟩] [] []).1.mpr
    ⟨⟨⟨1, true, "Can vote"⟩, by decide, rfl⟩, by decide⟩,
   (c8_all_required_acted [] []
      [⟨1, PlayerStatus.connected⟩, ⟨2, PlayerStatus.connected⟩]
      [⟨100, 1⟩, ⟨101, 2⟩]).2.mpr
    ⟨⟨⟨1, PlayerStatus.connected⟩, by decide, rfl⟩, by decide⟩⟩

/-- Claim C5: when every winning image resolves to an owner (as holds for
images created from this round's prompts), every winner row carries exactly
`floor(pointsPerWin / #winners)` points, the win-point total is
`#winners * floor(pointsPerWin / #winners)`, hence at most the configured
budget, with equality exactly when the budget is divisible by the number of
tied winners. -/
theorem c5_win_budget (votes : List Vote) (images : List GeneratedImage)
    (prompts : List Prompt) (config : ScoreConfig)
    (hres : ∀ w ∈ findWinningImages (countVotesPerImage votes),
      (resolveWinnerPlayer images prompts w).isSome = true) :
    (∀ r ∈ calculateRoundScores votes images prompts config,
        r.reason ≠ ScoreReason.participation →
        r.pointsAwarded =
          config.pointsPerWin / (findWinningImages (countVotesPerImage votes)).length)
  ∧ winPointsTotal (calculateRoundScores votes images prompts config) =
      (findWinningImages (countVotesPerImage votes)).length *
        (config.pointsPerWin / (findWinningImages (countVotesPerImage votes)).length)
  ∧ winPointsTotal (calculateRoundScores votes images prompts config) ≤
      config.pointsPerWin
  ∧ (0 < (findWinningImages (countVotesPerImage votes)).length →
      (winPointsTotal (calculateRoundScores votes images prompts config) =
          config.pointsPerWin ↔
        (findWinningImages (countVotesPerImage votes)).length ∣ config.pointsPerWin)) := by
  have hfilter : (calculateRoundScores votes images prompts config).filter
      (fun r => decide (r.reason ≠ ScoreReason.participation)) =
      winnerAwards images prompts config (findWinningImages (countVotesPerImage votes)) := by
    unfold calculateRoundScores
    rw [List.filter_append]
    rw [List.filter_eq_self.mpr (fun r hr => by simp [(winnerAwards_mem hr).1])]
    rw [List.filter_eq_nil_iff.mpr (fun r hr => by simp [(participationAwards_mem hr).1])]
    rw [List.append_nil]
  have hall : ∀ x ∈ (winnerAwards images prompts config
      (findWinningImages (countVotesPerImage votes))).map (fun r => r.pointsAwarded),
      x = config.pointsPerWin / (findWinningImages (countVotesPerImage votes)).length := by
    intro x hx
    obtain ⟨r, hr, hrx⟩ := List.mem_map.mp hx
    rw [← hrx]
    exact (winnerAwards_mem hr).2
  have hsum : winPointsTotal (calculateRoundScores votes images prompts config) =
      (findWinningImages (countVotesPerImage votes)).length *
        (config.pointsPerWin / (findWinningImages (countVotesPerImage votes)).length) := by
    unfold winPointsTotal
    rw [hfilter, sum_eq_length_mul_of_all_eq hall, List.length_map,
      winnerAwards_length hres]
  refine ⟨?_, hsum, ?_, ?_⟩
  · intro r hr hne
    rcases List.mem_append.mp hr with h | h
    · exact (winnerAwards_mem h).2
    · exact absurd (participationAwards_mem h).1 hne
  · rw [hsum, Nat.mul_comm]
    exact Nat.div_mul_le_self config.pointsPerWin _
  · intro _
    constructor
    · intro heq
      rw [hsum] at heq
      exact ⟨config.pointsPerWin /
        (findWinningImages (countVotesPerImage votes)).length, heq.symm⟩
    · intro hdvd
      rw [hsum]
      exact Nat.mul_div_cancel' hdvd

/-- Witness for `c5_win_budget`: the 3-way-tie scenario — three images with
one vote each, budget 100, each winner row carries `floor(100/3) = 33`, and
the total 99 stays at or below the budget. -/
theorem c5_witness :
    winPointsTotal (calculateRoundScores
        [⟨1, 10⟩, ⟨2, 11⟩, ⟨3, 12⟩]
        [⟨10, 100⟩, ⟨11, 101⟩, ⟨12, 102⟩]
        [⟨100, 3⟩, ⟨101, 1⟩, ⟨102, 2⟩] ⟨100, 10⟩) ≤ 100 :=
  (c5_win_budget [⟨1, 10⟩, ⟨2, 11⟩, ⟨3, 12⟩]
    [⟨10, 100⟩, ⟨11, 101⟩, ⟨12, 102⟩]
    [⟨100, 3⟩, ⟨101, 1⟩, ⟨102, 2⟩] ⟨100, 10⟩ (by decide)).2.2.1

/-- Claim C6: every distinct voter gets exactly one participation row (however
many votes they recorded, wherever their vote went, winner or not), every
participation row carries the configured participation amount, and a round
with zero votes awards nothing. -/
theorem c6_participation (votes : List Vote) (images : List GeneratedImage)
    (prompts : List Prompt) (config : ScoreConfig) :
    (∀ pid : Nat,
      ((calculateRoundScores votes images prompts config).filter
          (fun r => decide (r.reason = ScoreReason.participation ∧
            r.playerId = pid))).length =
        if pid ∈ votes.map (fun v => v.voterId) then 1 else 0)
  ∧ (∀ r ∈ calculateRoundScores votes images prompts config,
      r.reason = ScoreReason.participation → r.pointsAwarded = config.pointsPerVote)
  ∧ calculateRoundScores [] images prompts config = [] := by
  refine ⟨?_, ?_, rfl⟩
  · intro pid
    unfold calculateRoundScores
    rw [List.filter_append, List.length_append]
    rw [List.filter_eq_nil_iff.mpr
      (fun r hr => by simp [(winnerAwards_mem hr).1])]
    rw [participationAwards_filter_count]
    simp
  · intro r hr hreason
    rcases List.mem_append.mp hr with h | h
    · exact absurd hreason (winnerAwards_mem h).1
    · exact (participationAwards_mem h).2

/-- Witness for `c6_participation`: voter 1 votes twice and still gets exactly
one participation row. -/
theorem c6_witness :
    ((calculateRoundScores [⟨1, 10⟩, ⟨1, 11⟩, ⟨2, 10⟩] [⟨10, 100⟩] [⟨100, 3⟩]
        ⟨100, 10⟩).filter
      (fun r => decide (r.reason = ScoreReason.participation ∧
        r.playerId = 1))).length = 1 :=
  ((c6_participation [⟨1, 10⟩, ⟨1, 11⟩, ⟨2, 10⟩] [⟨10, 100⟩] [⟨100, 3⟩]
    ⟨100, 10⟩).1 1).trans (by decide)
